import Mathlib

/-!
Shallow embedding of the image-generation orchestration core of the
`assist` repository (`src/server/tools/utils/image_generation_core.py`),
together with the external collaborators it calls.  External behaviour
(provider backends, image preprocessing, the canvas persister, the credit
store) is passed in as an explicit environment; the orchestrator itself is
translated line by line from the source.
-/

set_option autoImplicit false

namespace Assist

/-- The exceptions the orchestrator can raise or let propagate, from
`image_generation_core.py`: `HTTPException(status_code, detail)` (lines
49-50 and 54-55), `ValueError(msg)` (line 60), an exception escaping the
uncaught `provider_instance.generate` call (line 83), and an exception
escaping the uncaught `save_image_to_canvas` call (line 92). -/
inductive PyError where
  | httpException (status_code : Nat) (detail : String)
  | valueError (msg : String)
  | providerException (msg : String)
  | persistException (msg : String)
deriving DecidableEq, Repr

/-- The tuple `(mime_type, width, height, filename)` returned by
`provider_instance.generate` (line 83 of the source). -/
structure ProviderResult where
  mime_type : String
  width : Nat
  height : Nat
  filename : String
deriving DecidableEq, Repr

/-- The `metadata` dictionary built at lines 74-80 of the source
(`input_images` is `input_images or []`). -/
structure Metadata where
  prompt : String
  model : String
  provider : String
  aspect : String
  input_images : List String
deriving DecidableEq, Repr

/-- The keys of the static registry `IMAGE_PROVIDERS` (lines 26-32 of the
source).  The provider instances themselves are external backends that are
not part of this repository; only the name → instance mapping's key set and
the dispatched `generate` behaviour (an `Env` field) matter here. -/
def IMAGE_PROVIDERS : List String :=
  ["jaaz", "openai", "replicate", "volces", "wavespeed"]

/-- The external collaborators of the orchestrator, as one record:
* `credits` — the acting user's remaining-credit counter held by the
  backing store (consumed through `check_and_update_credits`);
* `preprocess` — `process_input_image` (external module
  `tools.utils.image_utils`); `none` stands for a falsy result, which the
  source's `if processed_image:` test drops;
* `providerGenerate` — the `generate` capability of the provider instance
  looked up by name (arguments: provider name, prompt, model, aspect
  ratio, processed input images, metadata); `Except.error` stands for an
  exception raised by the backend;
* `saveImageToCanvas` — `save_image_to_canvas(session_id, canvas_id,
  filename, mime_type, width, height)`, returning the artifact path
  `image_url` or raising;
* `port` — the process-configuration constant `DEFAULT_PORT` imported
  from `common`. -/
structure Env where
  credits : Nat
  preprocess : String → Option String
  providerGenerate : String → String → String → String →
    Option (List String) → Metadata → Except String ProviderResult
  saveImageToCanvas : String → String → String → String → Nat → Nat →
    Except String String
  port : Nat

/-- Modelled from the spec: `check_and_update_credits(user_id)` is called
at line 53 of `image_generation_core.py` but its definition is missing from
`src/server/services/db_service.py` (only the caller is in the sources).
Spec §4.3/§6: a single atomic check-and-decrement on the per-user counter —
it returns false and leaves the counter unchanged when remaining credits
are exhausted, and returns true and decrements otherwise.  The pair is
(returned boolean, counter value after the operation). -/
def check_and_update_credits (credits : Nat) : Bool × Nat :=
  if 0 < credits then (true, credits - 1) else (false, credits)

/-- Observable side effects of one orchestrator run:
how often the credit store was hit (`gateCalls`), the counter value it was
left with (`creditsAfter`), how many registry lookups (`IMAGE_PROVIDERS.get`)
were made, how many `process_input_image` calls were made, how many
provider `generate` calls were made, the `input_images` argument the
provider received (`none` when the provider was never called), and how many
`save_image_to_canvas` calls were made. -/
structure Trace where
  gateCalls : Nat
  creditsAfter : Nat
  registryLookups : Nat
  preprocessCalls : Nat
  providerCalls : Nat
  providerInputImages : Option (Option (List String))
  persistCalls : Nat
deriving DecidableEq, Repr

/-- Python truthiness of the `Optional[int]` argument `user_id`, as tested
by `if not user_id:` at line 49 of the source: `None` and `0` are falsy. -/
def pyTruthy : Option Int → Bool
  | none => false
  | some n => n != 0

/-- The fixed base URL `http://localhost:{DEFAULT_PORT}` from the response
f-string at line 96 of the source; `DEFAULT_PORT` is process
configuration, not request input. -/
def baseUrl (env : Env) : String :=
  "http://localhost:" ++ toString env.port

/-- The preprocessing block, lines 63-69 of the source: `None` stays
`None`, an empty list is falsy so is skipped the same way, and otherwise
each image is preprocessed and appended only when the result is truthy. -/
def processedImages (env : Env) : Option (List String) → Option (List String)
  | none => none
  | some l => if l = [] then none else some (l.filterMap env.preprocess)

/-- How many `process_input_image` calls the block at lines 63-69 makes:
one per element of a truthy `input_images` list. -/
def ppCount : Option (List String) → Nat
  | none => 0
  | some l => if l = [] then 0 else l.length

/-- `generate_image_with_provider` (lines 35-96 of
`image_generation_core.py`), returning the response string or the raised
exception, paired with the run's observable side effects. -/
def generate_image_with_provider (env : Env)
    (canvas_id session_id provider model prompt : String)
    (aspect : String := "1:1")
    (input_images : Option (List String) := none)
    (user_id : Option Int := none) :
    Except PyError String × Trace :=
  -- line 49: if not user_id: raise HTTPException(401, ...)
  if pyTruthy user_id = false then
    (Except.error (PyError.httpException 401
        "User authentication required for image generation."),
      ⟨0, env.credits, 0, 0, 0, none, 0⟩)
  else
    -- line 53: can_generate = await db_service.check_and_update_credits(user_id)
    let can_generate := (check_and_update_credits env.credits).1
    let credits1 := (check_and_update_credits env.credits).2
    -- lines 54-55: if not can_generate: raise HTTPException(429, ...)
    if can_generate = false then
      (Except.error (PyError.httpException 429
          "Batas pembuatan gambar harian telah tercapai."),
        ⟨1, credits1, 0, 0, 0, none, 0⟩)
    -- lines 58-60: provider_instance = IMAGE_PROVIDERS.get(provider)
    else if IMAGE_PROVIDERS.contains provider = false then
      (Except.error (PyError.valueError ("Unknown provider: " ++ provider)),
        ⟨1, credits1, 1, 0, 0, none, 0⟩)
    else
      -- lines 63-71: per-image preprocessing (best effort)
      let processed_input_images := processedImages env input_images
      -- lines 74-80: metadata dict
      let metadata : Metadata :=
        ⟨prompt, model, provider, aspect, input_images.getD []⟩
      -- lines 83-89: provider dispatch (exceptions propagate uncaught)
      match env.providerGenerate provider prompt model aspect
          processed_input_images metadata with
      | Except.error e =>
          (Except.error (PyError.providerException e),
            ⟨1, credits1, 1, ppCount input_images, 1,
              some processed_input_images, 0⟩)
      | Except.ok r =>
          -- lines 92-94: save_image_to_canvas (exceptions propagate uncaught)
          match env.saveImageToCanvas session_id canvas_id r.filename
              r.mime_type r.width r.height with
          | Except.error e =>
              (Except.error (PyError.persistException e),
                ⟨1, credits1, 1, ppCount input_images, 1,
                  some processed_input_images, 1⟩)
          | Except.ok image_url =>
              -- line 96: response f-string
              (Except.ok ("image generated successfully ![image_id: "
                  ++ r.filename ++ "](" ++ baseUrl env ++ image_url ++ ")"),
                ⟨1, credits1, 1, ppCount input_images, 1,
                  some processed_input_images, 1⟩)

/-- A schedule of concurrent admission attempts against one user's
counter.  Because `check_and_update_credits` is a single atomic operation
(spec §4.3), every interleaving of concurrent attempts is some serial
order of the atomic operations; a schedule lists the clients in that
order.  The result pairs each client with the boolean its attempt
returned, together with the final counter value. -/
def runSchedule (sched : List Nat) (credits : Nat) :
    List (Nat × Bool) × Nat :=
  match sched with
  | [] => ([], credits)
  | a :: rest =>
      let r := check_and_update_credits credits
      let rr := runSchedule rest r.2
      ((a, r.1) :: rr.1, rr.2)

theorem check_and_update_credits_pos {c : Nat} (h : 0 < c) :
    check_and_update_credits c = (true, c - 1) := by
  simp [check_and_update_credits, h]

theorem check_and_update_credits_zero :
    check_and_update_credits 0 = (false, 0) := rfl

theorem runSchedule_spec (sched : List Nat) (c : Nat) :
    ((runSchedule sched c).1.countP (fun r => r.2) = min sched.length c)
      ∧ (runSchedule sched c).2 = c - sched.length := by
  induction sched generalizing c with
  | nil => simp [runSchedule]
  | cons a rest ih =>
      cases c with
      | zero =>
          have h0 := ih 0
          simp [runSchedule, check_and_update_credits_zero,
            List.countP_cons] at *
          exact h0
      | succ m =>
          have hm := ih m
          simp [runSchedule,
            check_and_update_credits_pos (Nat.succ_pos m),
            List.countP_cons] at *
          omega

theorem length_filterMap_eq_countP {α β : Type} (f : α → Option β)
    (l : List α) :
    (l.filterMap f).length = l.countP (fun a => (f a).isSome) := by
  induction l with
  | nil => rfl
  | cons x xs ih =>
      cases h : f x <;>
        simp [List.filterMap_cons, h, List.countP_cons, ih]

theorem filterMap_eq_filterMap_filter {α β : Type} (f : α → Option β)
    (l : List α) :
    l.filterMap f = (l.filter (fun a => (f a).isSome)).filterMap f := by
  induction l with
  | nil => rfl
  | cons x xs ih =>
      cases h : f x <;>
        simp [List.filterMap_cons, List.filter_cons, h, ih]

/-- A throwaway environment: a user with zero remaining credits in front
of backends that are never reached on the paths it is used for. -/
def envZero : Env where
  credits := 0
  preprocess := fun _ => none
  providerGenerate := fun _ _ _ _ _ _ => Except.error "backend unreachable"
  saveImageToCanvas := fun _ _ _ _ _ _ => Except.ok "/api/file/none"
  port := 57988

/-- C1: when the credit gate returns false, the orchestrator raises
HTTP 429 — distinguishable from every other failure of the pipeline — and
performs no registry lookup, no preprocessing and no provider call. -/
theorem C1_quota_exhausted_blocks_pipeline (env : Env)
    (canvas_id session_id provider model prompt aspect : String)
    (input_images : Option (List String)) (user_id : Option Int)
    (hu : pyTruthy user_id = true)
    (hq : (check_and_update_credits env.credits).1 = false) :
    (generate_image_with_provider env canvas_id session_id provider model
        prompt aspect input_images user_id)
      = (Except.error (PyError.httpException 429
          "Batas pembuatan gambar harian telah tercapai."),
         ⟨1, (check_and_update_credits env.credits).2, 0, 0, 0, none, 0⟩) := by
  simp [generate_image_with_provider, hu, hq]

theorem C1_witness :
    pyTruthy (some 7) = true
      ∧ (check_and_update_credits envZero.credits).1 = false
      ∧ (generate_image_with_provider envZero "c1" "s1" "openai" "gpt-image-1"
          "a cat" "1:1" none (some 7))
        = (Except.error (PyError.httpException 429
            "Batas pembuatan gambar harian telah tercapai."),
           ⟨1, (check_and_update_credits envZero.credits).2, 0, 0, 0, none, 0⟩) :=
  ⟨rfl, rfl,
    C1_quota_exhausted_blocks_pipeline envZero "c1" "s1" "openai"
      "gpt-image-1" "a cat" "1:1" none (some 7) rfl rfl⟩

/-- C2: the (spec-modelled) atomic gate admits no double-spend.  Every
interleaving of concurrent admission attempts against one user's counter
is some serial schedule of the atomic operation; on any schedule over a
counter of `N`, exactly `min (number of attempts) N` attempts return true
— so with at least `N` attempts exactly `N` succeed — the counter is left
at `N - attempts`, and a further attempt on the resulting counter
succeeds exactly when the schedule has not yet used up the quota. -/
theorem C2_gate_no_double_spend (N : Nat) (sched : List Nat) :
    ((runSchedule sched N).1.countP (fun r => r.2) = min sched.length N)
      ∧ (runSchedule sched N).2 = N - sched.length
      ∧ ((check_and_update_credits ((runSchedule sched N).2)).1
          = decide (sched.length < N)) := by
  obtain ⟨h1, h2⟩ := runSchedule_spec sched N
  refine ⟨h1, h2, ?_⟩
  rw [h2]
  by_cases h : sched.length < N
  · have hpos : 0 < N - sched.length := by omega
    simp [check_and_update_credits, hpos, h]
  · have hz : N - sched.length = 0 := by omega
    simp [hz, check_and_update_credits_zero, h]

/-- C7: a null acting user id is rejected immediately with HTTP 401 and
the run has no side effects: the credit store is never called and keeps
its value, and no registry lookup, preprocessing, provider call or
persistence happens. -/
theorem C7_null_user_unauthorized (env : Env)
    (canvas_id session_id provider model prompt aspect : String)
    (input_images : Option (List String)) :
    (generate_image_with_provider env canvas_id session_id provider model
        prompt aspect input_images none)
      = (Except.error (PyError.httpException 401
          "User authentication required for image generation."),
         ⟨0, env.credits, 0, 0, 0, none, 0⟩) := by
  simp [generate_image_with_provider, pyTruthy]

/-- C10: the guard at line 49 tests Python truthiness of `user_id`, so
every falsy user id — `None` or the integer `0` alike — terminates the
request at the authentication step with HTTP 401 and no side effects. -/
theorem C10_falsy_user_id_rejected (env : Env)
    (canvas_id session_id provider model prompt aspect : String)
    (input_images : Option (List String)) (user_id : Option Int)
    (hu : pyTruthy user_id = false) :
    (generate_image_with_provider env canvas_id session_id provider model
        prompt aspect input_images user_id)
      = (Except.error (PyError.httpException 401
          "User authentication required for image generation."),
         ⟨0, env.credits, 0, 0, 0, none, 0⟩) := by
  simp [generate_image_with_provider, hu]

theorem C10_witness :
    pyTruthy (some 0) = false
      ∧ (generate_image_with_provider envZero "c1" "s1" "openai"
          "gpt-image-1" "a cat" "1:1" none (some 0))
        = (Except.error (PyError.httpException 401
            "User authentication required for image generation."),
           ⟨0, envZero.credits, 0, 0, 0, none, 0⟩) :=
  ⟨rfl,
    C10_falsy_user_id_rejected envZero "c1" "s1" "openai" "gpt-image-1"
      "a cat" "1:1" none (some 0) rfl⟩

/-- Reduction of an admitted, resolved run to its dispatch/persistence
case split: with a truthy user, a positive counter and a registered
provider name, the run is determined by the provider call and, on its
success, the persister call. -/
theorem run_admitted (env : Env)
    (canvas_id session_id provider model prompt aspect : String)
    (input_images : Option (List String)) (user_id : Option Int)
    (hu : pyTruthy user_id = true) (hc : 0 < env.credits)
    (hp : IMAGE_PROVIDERS.contains provider = true) :
    generate_image_with_provider env canvas_id session_id provider model
        prompt aspect input_images user_id
      = (match env.providerGenerate provider prompt model aspect
            (processedImages env input_images)
            ⟨prompt, model, provider, aspect, input_images.getD []⟩ with
        | Except.error e =>
            (Except.error (PyError.providerException e),
              ⟨1, env.credits - 1, 1, ppCount input_images, 1,
                some (processedImages env input_images), 0⟩)
        | Except.ok r =>
            match env.saveImageToCanvas session_id canvas_id r.filename
                r.mime_type r.width r.height with
            | Except.error e =>
                (Except.error (PyError.persistException e),
                  ⟨1, env.credits - 1, 1, ppCount input_images, 1,
                    some (processedImages env input_images), 1⟩)
            | Except.ok image_url =>
                (Except.ok ("image generated successfully ![image_id: "
                    ++ r.filename ++ "](" ++ baseUrl env ++ image_url ++ ")"),
                  ⟨1, env.credits - 1, 1, ppCount input_images, 1,
                    some (processedImages env input_images), 1⟩)) := by
  have hmem : provider ∈ IMAGE_PROVIDERS := by simpa using hp
  simp [generate_image_with_provider, hu, hmem,
    check_and_update_credits_pos hc]

/-- Modelled from the spec: `save_image_to_canvas` is imported from
`image_canvas_utils`, which is not among the sources; spec §4.5 and §8 —
the persister records the artifact and returns the addressable path
`/api/file/` + artifact identifier.  Used to instantiate the persister on
the success path. -/
def save_image_to_canvas_spec (filename : String) : String :=
  "/api/file/" ++ filename

/-- Follows the spec's words for claim C3, not the source: a failure is a
caller-visible invalid-request error when it carries an HTTP 4xx status
code that the framework can return to the caller (as the explicit 401 and
429 `HTTPException`s of the source do).  A bare `ValueError` carries no
HTTP status at all. -/
def isCallerVisibleInvalidRequest : PyError → Bool
  | PyError.httpException s _ => decide (400 ≤ s ∧ s < 500)
  | _ => false

/-- A healthy environment: a user with five credits, a preprocessor that
fails on the reference "bad" and succeeds elsewhere, a provider that
returns a 512×512 PNG named "abc123", and the spec-modelled persister. -/
def envOk : Env where
  credits := 5
  preprocess := fun s =>
    if s = "bad" then none else some ("data:image/png;base64," ++ s)
  providerGenerate := fun _ _ _ _ _ _ =>
    Except.ok ⟨"image/png", 512, 512, "abc123"⟩
  saveImageToCanvas := fun _ _ fn _ _ _ =>
    Except.ok (save_image_to_canvas_spec fn)
  port := 57988

/-- C3 counterexample: run against an unknown provider name ("nope") with
an authenticated user holding credits, the orchestrator raises the bare
`ValueError "Unknown provider: nope"` — an error that carries no HTTP
status, hence not a caller-visible invalid-request (4xx) error in the
spec's sense, unlike the deliberate 401/429 `HTTPException` paths. -/
theorem C3_counterexample :
    (generate_image_with_provider envOk "c1" "s1" "nope" "gpt-image-1"
        "a cat" "1:1" none (some 7)).1
      = Except.error (PyError.valueError "Unknown provider: nope")
      ∧ isCallerVisibleInvalidRequest
          (PyError.valueError "Unknown provider: nope") = false :=
  ⟨rfl, rfl⟩

/-- C3 (amended): for every provider name not in the registry, the
orchestrator fails with the deliberate, distinguishable condition
`ValueError ("Unknown provider: " + name)` — a 'provider not found'
failure distinct from every `HTTPException` and not an unintended crash —
but the error is not an `HTTPException` and carries no HTTP status, so it
does not surface as a caller-visible invalid-request (4xx) error. -/
theorem C3_unknown_provider_bare_value_error (env : Env)
    (canvas_id session_id provider model prompt aspect : String)
    (input_images : Option (List String)) (user_id : Option Int)
    (hu : pyTruthy user_id = true) (hc : 0 < env.credits)
    (hp : IMAGE_PROVIDERS.contains provider = false) :
    ((generate_image_with_provider env canvas_id session_id provider model
        prompt aspect input_images user_id).1
      = Except.error (PyError.valueError ("Unknown provider: " ++ provider)))
      ∧ (∀ s d, PyError.valueError ("Unknown provider: " ++ provider)
          ≠ PyError.httpException s d)
      ∧ isCallerVisibleInvalidRequest
          (PyError.valueError ("Unknown provider: " ++ provider)) = false := by
  refine ⟨?_, fun s d h => PyError.noConfusion h, rfl⟩
  have hmem : provider ∉ IMAGE_PROVIDERS := by simpa using hp
  simp [generate_image_with_provider, hu, hmem,
    check_and_update_credits_pos hc]

theorem C3_witness :
    pyTruthy (some 7) = true ∧ 0 < envOk.credits
      ∧ IMAGE_PROVIDERS.contains "nope" = false
      ∧ (((generate_image_with_provider envOk "c1" "s1" "nope" "gpt-image-1"
            "a cat" "1:1" none (some 7)).1
          = Except.error (PyError.valueError ("Unknown provider: " ++ "nope")))
        ∧ (∀ s d, PyError.valueError ("Unknown provider: " ++ "nope")
            ≠ PyError.httpException s d)
        ∧ isCallerVisibleInvalidRequest
            (PyError.valueError ("Unknown provider: " ++ "nope")) = false) :=
  ⟨rfl, by decide, rfl,
    C3_unknown_provider_bare_value_error envOk "c1" "s1" "nope" "gpt-image-1"
      "a cat" "1:1" none (some 7) rfl (by decide) rfl⟩

/-- C4: after a successful admission, an unknown provider name leaves the
credit decremented (the gate was called exactly once and took one credit)
and the run fails at provider resolution: one registry lookup, but no
preprocessing, no provider call and no persistence. -/
theorem C4_unknown_provider_after_admission (env : Env)
    (canvas_id session_id provider model prompt aspect : String)
    (input_images : Option (List String)) (user_id : Option Int)
    (hu : pyTruthy user_id = true) (hc : 0 < env.credits)
    (hp : IMAGE_PROVIDERS.contains provider = false) :
    generate_image_with_provider env canvas_id session_id provider model
        prompt aspect input_images user_id
      = (Except.error (PyError.valueError ("Unknown provider: " ++ provider)),
         ⟨1, env.credits - 1, 1, 0, 0, none, 0⟩) := by
  have hmem : provider ∉ IMAGE_PROVIDERS := by simpa using hp
  simp [generate_image_with_provider, hu, hmem,
    check_and_update_credits_pos hc]

theorem C4_witness :
    pyTruthy (some 7) = true ∧ 0 < envOk.credits
      ∧ IMAGE_PROVIDERS.contains "nope" = false
      ∧ generate_image_with_provider envOk "c1" "s1" "nope" "gpt-image-1"
          "a cat" "1:1" (some ["ref1", "bad"]) (some 7)
        = (Except.error (PyError.valueError ("Unknown provider: " ++ "nope")),
           ⟨1, envOk.credits - 1, 1, 0, 0, none, 0⟩) :=
  ⟨rfl, by decide, rfl,
    C4_unknown_provider_after_admission envOk "c1" "s1" "nope" "gpt-image-1"
      "a cat" "1:1" (some ["ref1", "bad"]) (some 7) rfl (by decide) rfl⟩

/-- The dispatch-independent part of an admitted run's trace: the
provider is called exactly once, with `processedImages` of the request's
input images, and preprocessing ran `ppCount` times — whatever the
provider and persister then do. -/
theorem run_admitted_dispatch_trace (env : Env)
    (canvas_id session_id provider model prompt aspect : String)
    (input_images : Option (List String)) (user_id : Option Int)
    (hu : pyTruthy user_id = true) (hc : 0 < env.credits)
    (hp : IMAGE_PROVIDERS.contains provider = true) :
    ((generate_image_with_provider env canvas_id session_id provider model
        prompt aspect input_images user_id).2.providerCalls = 1)
      ∧ ((generate_image_with_provider env canvas_id session_id provider
          model prompt aspect input_images user_id).2.providerInputImages
        = some (processedImages env input_images))
      ∧ ((generate_image_with_provider env canvas_id session_id provider
          model prompt aspect input_images user_id).2.preprocessCalls
        = ppCount input_images) := by
  rw [run_admitted env canvas_id session_id provider model prompt aspect
    input_images user_id hu hc hp]
  cases hgen : env.providerGenerate provider prompt model aspect
      (processedImages env input_images)
      ⟨prompt, model, provider, aspect, input_images.getD []⟩ with
  | error e => exact ⟨rfl, rfl, rfl⟩
  | ok r =>
      dsimp only
      cases hsave : env.saveImageToCanvas session_id canvas_id r.filename
          r.mime_type r.width r.height with
      | error e => exact ⟨rfl, rfl, rfl⟩
      | ok image_url => exact ⟨rfl, rfl, rfl⟩

/-- An environment whose provider backend always raises. -/
def envProviderDown : Env where
  credits := 5
  preprocess := fun s => if s = "bad" then none else some s
  providerGenerate := fun _ _ _ _ _ _ => Except.error "backend boom"
  saveImageToCanvas := fun _ _ fn _ _ _ =>
    Except.ok (save_image_to_canvas_spec fn)
  port := 57988

/-- An environment whose canvas persister always raises while the
provider succeeds. -/
def envPersistDown : Env where
  credits := 5
  preprocess := fun s => some s
  providerGenerate := fun _ _ _ _ _ _ =>
    Except.ok ⟨"image/png", 512, 512, "abc123"⟩
  saveImageToCanvas := fun _ _ _ _ _ _ =>
    Except.error "canvas store unreachable"
  port := 57988

/-- C5: when the provider's generate call raises after a successful
admission, the exception propagates to the caller as a provider failure,
the provider was called exactly once (no retry with any provider),
persistence never runs, and the credit store was touched exactly once —
the gate's own decrement — so the already-decremented counter is left at
`credits - 1` with no refund. -/
theorem C5_provider_failure_no_refund (env : Env)
    (canvas_id session_id provider model prompt aspect : String)
    (input_images : Option (List String)) (user_id : Option Int)
    (msg : String)
    (hu : pyTruthy user_id = true) (hc : 0 < env.credits)
    (hp : IMAGE_PROVIDERS.contains provider = true)
    (hgen : ∀ p pr m a i md,
      env.providerGenerate p pr m a i md = Except.error msg) :
    generate_image_with_provider env canvas_id session_id provider model
        prompt aspect input_images user_id
      = (Except.error (PyError.providerException msg),
         ⟨1, env.credits - 1, 1, ppCount input_images, 1,
           some (processedImages env input_images), 0⟩) := by
  rw [run_admitted env canvas_id session_id provider model prompt aspect
    input_images user_id hu hc hp]
  simp only [hgen]

theorem C5_witness :
    pyTruthy (some 7) = true ∧ 0 < envProviderDown.credits
      ∧ IMAGE_PROVIDERS.contains "openai" = true
      ∧ generate_image_with_provider envProviderDown "c1" "s1" "openai"
          "gpt-image-1" "a cat" "1:1" (some ["ref1", "bad"]) (some 7)
        = (Except.error (PyError.providerException "backend boom"),
           ⟨1, envProviderDown.credits - 1, 1, ppCount (some ["ref1", "bad"]),
             1, some (processedImages envProviderDown (some ["ref1", "bad"])),
             0⟩) :=
  ⟨rfl, by decide, by decide,
    C5_provider_failure_no_refund envProviderDown "c1" "s1" "openai"
      "gpt-image-1" "a cat" "1:1" (some ["ref1", "bad"]) (some 7)
      "backend boom" rfl (by decide) (by decide)
      (fun _ _ _ _ _ _ => rfl)⟩

/-- C6: once past admission and resolution, the list handed to the
provider is exactly the preprocessed forms of the input references whose
preprocessing succeeded — the filter of the input list by preprocessing
success is a subsequence of the input in its original order, and the
outgoing list is its image under the preprocessor, with no placeholders —
the outgoing count equals the count of references that passed,
preprocessing ran once per reference, and no per-image failure aborts the
request: the provider is called exactly once regardless. -/
theorem C6_preprocessing_best_effort (env : Env)
    (canvas_id session_id provider model prompt aspect : String)
    (l : List String) (user_id : Option Int)
    (hu : pyTruthy user_id = true) (hc : 0 < env.credits)
    (hp : IMAGE_PROVIDERS.contains provider = true) (hl : l ≠ []) :
    ((generate_image_with_provider env canvas_id session_id provider model
        prompt aspect (some l) user_id).2.providerCalls = 1)
      ∧ ((generate_image_with_provider env canvas_id session_id provider
          model prompt aspect (some l) user_id).2.providerInputImages
        = some (some (l.filterMap env.preprocess)))
      ∧ ((generate_image_with_provider env canvas_id session_id provider
          model prompt aspect (some l) user_id).2.preprocessCalls
        = l.length)
      ∧ ((l.filterMap env.preprocess).length
          = l.countP (fun i => (env.preprocess i).isSome))
      ∧ (l.filterMap env.preprocess
          = (l.filter (fun i => (env.preprocess i).isSome)).filterMap
              env.preprocess)
      ∧ List.Sublist (l.filter (fun i => (env.preprocess i).isSome)) l := by
  obtain ⟨h1, h2, h3⟩ := run_admitted_dispatch_trace env canvas_id session_id
    provider model prompt aspect (some l) user_id hu hc hp
  refine ⟨h1, ?_, ?_, length_filterMap_eq_countP _ _,
    filterMap_eq_filterMap_filter _ _, List.filter_sublist l⟩
  · rw [h2]; simp [processedImages, hl]
  · rw [h3]; simp [ppCount, hl]

theorem C6_witness :
    pyTruthy (some 7) = true ∧ 0 < envOk.credits
      ∧ IMAGE_PROVIDERS.contains "openai" = true
      ∧ (["ref1", "bad", "ref2"] : List String) ≠ []
      ∧ ((generate_image_with_provider envOk "c1" "s1" "openai" "gpt-image-1"
          "a cat" "1:1" (some ["ref1", "bad", "ref2"]) (some 7)).2.providerInputImages
        = some (some (["ref1", "bad", "ref2"].filterMap envOk.preprocess)))
      ∧ ((["ref1", "bad", "ref2"].filterMap envOk.preprocess).length
          = ["ref1", "bad", "ref2"].countP
              (fun i => (envOk.preprocess i).isSome)) :=
  ⟨rfl, by decide, by decide, by decide,
    (C6_preprocessing_best_effort envOk "c1" "s1" "openai" "gpt-image-1"
      "a cat" "1:1" ["ref1", "bad", "ref2"] (some 7) rfl (by decide)
      (by decide) (by decide)).2.1,
    (C6_preprocessing_best_effort envOk "c1" "s1" "openai" "gpt-image-1"
      "a cat" "1:1" ["ref1", "bad", "ref2"] (some 7) rfl (by decide)
      (by decide) (by decide)).2.2.2.1⟩

/-- C8: when the persister raises after a successful provider call, the
run fails with a persistence failure — a classification distinct from a
provider failure — the provider was called exactly once, and after the
failure nothing touches the provider or the credit store again (no
compensating rollback: the trace ends with one provider call, one gate
call and one persister call). -/
theorem C8_persistence_failure_distinct (env : Env)
    (canvas_id session_id provider model prompt aspect : String)
    (input_images : Option (List String)) (user_id : Option Int)
    (r : ProviderResult) (msg : String)
    (hu : pyTruthy user_id = true) (hc : 0 < env.credits)
    (hp : IMAGE_PROVIDERS.contains provider = true)
    (hgen : ∀ p pr m a i md,
      env.providerGenerate p pr m a i md = Except.ok r)
    (hsave : ∀ sid cid fn mt w h,
      env.saveImageToCanvas sid cid fn mt w h = Except.error msg) :
    (generate_image_with_provider env canvas_id session_id provider model
        prompt aspect input_images user_id
      = (Except.error (PyError.persistException msg),
         ⟨1, env.credits - 1, 1, ppCount input_images, 1,
           some (processedImages env input_images), 1⟩))
      ∧ (∀ s, PyError.persistException msg ≠ PyError.providerException s) := by
  refine ⟨?_, fun s h => PyError.noConfusion h⟩
  rw [run_admitted env canvas_id session_id provider model prompt aspect
    input_images user_id hu hc hp]
  simp only [hgen, hsave]

theorem C8_witness :
    pyTruthy (some 7) = true ∧ 0 < envPersistDown.credits
      ∧ IMAGE_PROVIDERS.contains "openai" = true
      ∧ (generate_image_with_provider envPersistDown "c1" "s1" "openai"
          "gpt-image-1" "a cat" "1:1" none (some 7)
        = (Except.error (PyError.persistException "canvas store unreachable"),
           ⟨1, envPersistDown.credits - 1, 1, ppCount (none : Option (List String)),
             1, some (processedImages envPersistDown none), 1⟩))
      ∧ (∀ s, PyError.persistException "canvas store unreachable"
          ≠ PyError.providerException s) :=
  ⟨rfl, by decide, by decide,
    (C8_persistence_failure_distinct envPersistDown "c1" "s1" "openai"
      "gpt-image-1" "a cat" "1:1" none (some 7)
      ⟨"image/png", 512, 512, "abc123"⟩ "canvas store unreachable" rfl
      (by decide) (by decide) (fun _ _ _ _ _ _ => rfl)
      (fun _ _ _ _ _ _ => rfl)).1,
    (C8_persistence_failure_distinct envPersistDown "c1" "s1" "openai"
      "gpt-image-1" "a cat" "1:1" none (some 7)
      ⟨"image/png", 512, 512, "abc123"⟩ "canvas store unreachable" rfl
      (by decide) (by decide) (fun _ _ _ _ _ _ => rfl)
      (fun _ _ _ _ _ _ => rfl)).2⟩

/-- C9: on a fully successful run the response is exactly the source's
f-string, so it contains the artifact identifier the provider returned
and the configured base URL, and the embedded artifact URL is the fixed
base URL (`http://localhost:` + the `DEFAULT_PORT` process configuration,
a function of the environment only, never of the request) followed by the
persister's path `/api/file/` + artifact identifier. -/
theorem C9_success_response_url (env : Env)
    (canvas_id session_id provider model prompt aspect : String)
    (input_images : Option (List String)) (user_id : Option Int)
    (r : ProviderResult)
    (hu : pyTruthy user_id = true) (hc : 0 < env.credits)
    (hp : IMAGE_PROVIDERS.contains provider = true)
    (hgen : ∀ p pr m a i md,
      env.providerGenerate p pr m a i md = Except.ok r)
    (hsave : ∀ sid cid fn mt w h,
      env.saveImageToCanvas sid cid fn mt w h
        = Except.ok (save_image_to_canvas_spec fn)) :
    ((generate_image_with_provider env canvas_id session_id provider model
        prompt aspect input_images user_id).1
      = Except.ok ("image generated successfully ![image_id: " ++ r.filename
          ++ "](" ++ baseUrl env ++ save_image_to_canvas_spec r.filename
          ++ ")"))
      ∧ (∃ a b : String,
          "image generated successfully ![image_id: " ++ r.filename
              ++ "](" ++ baseUrl env ++ save_image_to_canvas_spec r.filename
              ++ ")"
            = a ++ r.filename ++ b)
      ∧ (∃ a b : String,
          "image generated successfully ![image_id: " ++ r.filename
              ++ "](" ++ baseUrl env ++ save_image_to_canvas_spec r.filename
              ++ ")"
            = a ++ baseUrl env ++ b) := by
  refine ⟨?_, ?_, ?_⟩
  · rw [run_admitted env canvas_id session_id provider model prompt aspect
      input_images user_id hu hc hp]
    simp only [hgen, hsave]
  · exact ⟨"image generated successfully ![image_id: ",
      "](" ++ baseUrl env ++ save_image_to_canvas_spec r.filename ++ ")",
      by simp [String.append_assoc]⟩
  · exact ⟨"image generated successfully ![image_id: " ++ r.filename ++ "](",
      save_image_to_canvas_spec r.filename ++ ")",
      by simp [String.append_assoc]⟩

theorem C9_witness :
    pyTruthy (some 7) = true ∧ 0 < envOk.credits
      ∧ IMAGE_PROVIDERS.contains "openai" = true
      ∧ ((generate_image_with_provider envOk "c1" "s1" "openai" "gpt-image-1"
          "a cat" "1:1" none (some 7)).1
        = Except.ok ("image generated successfully ![image_id: " ++ "abc123"
            ++ "](" ++ baseUrl envOk ++ save_image_to_canvas_spec "abc123"
            ++ ")"))
      ∧ (∃ a b : String,
          "image generated successfully ![image_id: " ++ "abc123"
              ++ "](" ++ baseUrl envOk ++ save_image_to_canvas_spec "abc123"
              ++ ")"
            = a ++ "abc123" ++ b) :=
  ⟨rfl, by decide, by decide,
    (C9_success_response_url envOk "c1" "s1" "openai" "gpt-image-1" "a cat"
      "1:1" none (some 7) ⟨"image/png", 512, 512, "abc123"⟩ rfl (by decide)
      (by decide) (fun _ _ _ _ _ _ => rfl) (fun _ _ _ _ _ _ => rfl)).1,
    (C9_success_response_url envOk "c1" "s1" "openai" "gpt-image-1" "a cat"
      "1:1" none (some 7) ⟨"image/png", 512, 512, "abc123"⟩ rfl (by decide)
      (by decide) (fun _ _ _ _ _ _ => rfl) (fun _ _ _ _ _ _ => rfl)).2.1⟩

end Assist
